import Mathlib

/-!
Verification development for the Chronicle SECOPS ingestion client
(`src/ingest.py`).  The Python module batches JSON log records under a byte
threshold and posts them to an ingestion endpoint, and offers a companion
reference-list fetch.  We embed the size-aware batching loop of `ingest`
(lines 58-112), the response handling of `_send_logs_to_chronicle`
(lines 115-155), the URL construction (lines 130-135 and 175-180) and
`get_reference_list` (lines 158-194) as executable Lean definitions, and
prove or refute the specified properties about them.
-/

namespace Chronicle

/-- Threshold value in bytes for ingesting the logs to the Chronicle
(`SIZE_THRESHOLD_BYTES = 950000`, ingest.py line 30). -/
def SIZE_THRESHOLD_BYTES : Nat := 950000

/-- Count of logs to check the batch size at once
(`LOG_BATCH_SIZE = 100`, ingest.py line 33). -/
def LOG_BATCH_SIZE : Nat := 100

/-- Base URL for the ingestion API (ingest.py line 24). -/
def INGESTION_API_BASE_URL : String := "malachiteingestion-pa.googleapis.com"

/-- Base URL for the reference list API (ingest.py line 27). -/
def REFERENCE_LIST_API_BASE_URL : String := "backstory.googleapis.com"

/-- One parsed entry `\x7b"logText": json.dumps(i)\x7d` (ingest.py line 72).
A raw record `i` is represented by its serialisation `json.dumps(i)`, which is
all the Python code ever uses of it. -/
structure Envelope where
  logText : String
deriving DecidableEq

/-- The request body built by `ingest` (ingest.py lines 74-80): a Python dict
with keys `customerId`, `logType`, `entries` and, when a namespace is
configured, `namespace` (inserted after `entries`).  `nspace` models the
optional `namespace` key (`namespace` is a Lean keyword). -/
structure Body where
  customerId : String
  logType : String
  nspace : Option String
  entries : List Envelope
deriving DecidableEq

/-- Lower-case hexadecimal digit, as used by Python's `json` escaping. -/
def hexDigit (n : Nat) : Char :=
  Char.ofNat (if n < 10 then 48 + n else 87 + n)

/-- Four lower-case hex digits. -/
def hex4 (n : Nat) : String :=
  String.mk [hexDigit (n / 4096 % 16), hexDigit (n / 256 % 16),
             hexDigit (n / 16 % 16), hexDigit (n % 16)]

/-- `\uXXXX` escape of a non-ASCII code point, with a surrogate pair for
code points above `0xFFFF`, as produced by `json.dumps` with the default
`ensure_ascii=True`. -/
def uEscape (n : Nat) : String :=
  if n < 65536 then "\\u" ++ hex4 n
  else "\\u" ++ hex4 (55296 + (n - 65536) / 1024) ++ "\\u" ++ hex4 (56320 + (n - 65536) % 1024)

/-- Escape of one character inside a JSON string literal, following Python's
`json.encoder` with `ensure_ascii=True`: `"` (code 34) and `\` (code 92) are
backslash-escaped, the usual control shorthands are used, other control
characters get `\u00XX`, printable ASCII is kept, everything else becomes a
`\uXXXX` escape. -/
def quoteChar (c : Char) : String :=
  if c.toNat = 34 then "\\\""
  else if c.toNat = 92 then "\\\\"
  else if c.toNat = 10 then "\\n"
  else if c.toNat = 13 then "\\r"
  else if c.toNat = 9 then "\\t"
  else if c.toNat = 8 then "\\b"
  else if c.toNat = 12 then "\\f"
  else if c.toNat < 32 then "\\u00" ++ String.mk [hexDigit (c.toNat / 16), hexDigit (c.toNat % 16)]
  else if c.toNat < 127 then String.singleton c
  else uEscape c.toNat

/-- Escapes a list of characters. -/
def escapeChars : List Char → String
  | [] => ""
  | c :: cs => quoteChar c ++ escapeChars cs

/-- `json.dumps` of a Python string: the escaped characters between double
quotes. -/
def jsonQuote (s : String) : String :=
  "\"" ++ escapeChars s.data ++ "\""

/-- `json.dumps` of one entry dict `\x7b"logText": s\x7d` with the default
separators `(", ", ": ")`. -/
def dumpsEnvelope (e : Envelope) : String :=
  "\x7b\"logText\": " ++ jsonQuote e.logText ++ "\x7d"

/-- The comma-joined items of a JSON array of entries. -/
def dumpsItems : List Envelope → String
  | [] => ""
  | [e] => dumpsEnvelope e
  | e :: es => dumpsEnvelope e ++ ", " ++ dumpsItems es

/-- `json.dumps` of a Python list of entry dicts. -/
def dumpsList (es : List Envelope) : String :=
  "[" ++ dumpsItems es ++ "]"

/-- Rendering of the optional `namespace` key, which Python dict insertion
order places after `entries` (ingest.py lines 79-80). -/
def dumpsNs : Option String → String
  | none => ""
  | some s => ", \"namespace\": " ++ jsonQuote s

/-- `json.dumps` of the request body dict, in insertion order
`customerId, logType, entries[, namespace]` (ingest.py lines 74-80). -/
def dumpsBody (b : Body) : String :=
  "\x7b\"customerId\": " ++ jsonQuote b.customerId ++
  ", \"logType\": " ++ jsonQuote b.logType ++
  ", \"entries\": " ++ dumpsList b.entries ++
  dumpsNs b.nspace ++ "\x7d"

/-- `sys.getsizeof` applied to the result of `json.dumps` (ingest.py lines
84-85, 92): `json.dumps` with `ensure_ascii=True` always yields an ASCII
string, and CPython (64-bit) reports `49 + length` bytes for a compact ASCII
`str` object. -/
def getsizeof (s : String) : Nat := 49 + s.length

/-- The while loop of `ingest` (ingest.py lines 82-109) followed by the final
flush (lines 111-112).  `index` is the cursor, `acc` the accumulated
`body["entries"]`.  The function returns the entry lists of the requests
passed to `_send_logs_to_chronicle`, in send order, together with a
completion flag.  The `fuel` argument bounds the number of loop iterations
(the Python loop has no such bound); when fuel runs out the flag is `false`
and the first component lists the requests sent so far, which makes the
loop's failure to terminate observable as `∀ fuel, flag = false`. -/
def ingestLoop (b0 : Body) (parsed : List Envelope) (fuel index : Nat)
    (acc : List Envelope) : List (List Envelope) × Bool :=
  match fuel with
  | 0 => ([], false)
  | fuel + 1 =>
    if h : index < parsed.length then
      if SIZE_THRESHOLD_BYTES ≤ getsizeof (dumpsList ((parsed.drop index).take LOG_BATCH_SIZE)) then
        if getsizeof (dumpsBody { b0 with entries := acc }) + getsizeof (dumpsEnvelope parsed[index]) ≤ SIZE_THRESHOLD_BYTES then
          ingestLoop b0 parsed fuel (index + 1) (acc ++ [parsed[index]])
        else
          ((acc :: (ingestLoop b0 parsed fuel index []).1), (ingestLoop b0 parsed fuel index []).2)
      else
        if getsizeof (dumpsBody { b0 with entries := acc }) + getsizeof (dumpsList ((parsed.drop index).take LOG_BATCH_SIZE)) ≤ SIZE_THRESHOLD_BYTES then
          ingestLoop b0 parsed fuel (index + LOG_BATCH_SIZE) (acc ++ (parsed.drop index).take LOG_BATCH_SIZE)
        else
          ((acc :: (ingestLoop b0 parsed fuel index []).1), (ingestLoop b0 parsed fuel index []).2)
    else
      (if acc = [] then [] else [acc], true)

/-- The initial request body of `ingest` (ingest.py lines 70-80): fixed
metadata, empty entry list, and the `namespace` key only when the
environment variable is set and non-empty (`if namespace:`). -/
def ingestBody (customer_id log_type : String) (ns : Option String) : Body :=
  { customerId := customer_id, logType := log_type,
    nspace := match ns with
      | some s => if s = "" then none else some s
      | none => none,
    entries := [] }

/-- `ingest` (ingest.py lines 58-112): wraps every record in an envelope and
runs the batching loop from index 0 with empty accumulated entries.
`customer_id`, `log_type` and `ns` model the module configuration
`CUSTOMER_ID`, the `log_type` argument and the `CHRONICLE_NAMESPACE`
environment variable; each element of `data` stands for the serialisation
`json.dumps(i)` of one raw record. -/
def ingest (customer_id log_type : String) (ns : Option String)
    (data : List String) (fuel : Nat) : List (List Envelope) × Bool :=
  ingestLoop (ingestBody customer_id log_type ns)
    (data.map (fun i => { logText := i })) fuel 0 []

/-- Python `str.lower()` for the ASCII range: each character lower-cased. -/
def pyLower (s : String) : String := String.mk (s.data.map Char.toLower)

/-- URL built by `_send_logs_to_chronicle` (ingest.py lines 130-135): the
lower-cased region is prefixed to the host unless it equals `us`. -/
def ingestion_url (region : String) : String :=
  if pyLower region ≠ "us" then
    "https://" ++ pyLower region ++ "-" ++ INGESTION_API_BASE_URL ++ "/v2/unstructuredlogentries:batchCreate"
  else
    "https://" ++ INGESTION_API_BASE_URL ++ "/v2/unstructuredlogentries:batchCreate"

/-- URL built by `get_reference_list` (ingest.py lines 175-180). -/
def reference_list_url (region list_name : String) : String :=
  if pyLower region ≠ "us" then
    "https://" ++ pyLower region ++ "-" ++ REFERENCE_LIST_API_BASE_URL ++ "/v2/lists/" ++ list_name
  else
    "https://" ++ REFERENCE_LIST_API_BASE_URL ++ "/v2/lists/" ++ list_name

/-- A parsed JSON value, as returned by `response.json()`.  Enough structure
for the dict/list/string operations the Python code applies to it. -/
inductive JVal where
  | null
  | bool (b : Bool)
  | num (n : Int)
  | str (s : String)
  | arr (elems : List JVal)
  | obj (fields : List (String × JVal))

/-- The Python exceptions that can arise in the embedded fragments:
`ValueError` from `response.json()` on an unparseable body, `AttributeError`
from `.get`/`.strip` on a value lacking the method, `TypeError` from
iterating a non-iterable, and `requests.HTTPError` from
`raise_for_status()`. -/
inductive PyExc where
  | valueError
  | attrError
  | typeError
  | httpError (status : Nat)
deriving DecidableEq

/-- An HTTP response as the code observes it: the status code, and the JSON
body — `none` when the body cannot be parsed as JSON, so that
`response.json()` raises `ValueError` (e.g. an empty body). -/
structure HttpResponse where
  status : Nat
  jsonBody : Option JVal

/-- `response.raise_for_status()` from the `requests` library: raises
`HTTPError` exactly for status codes in `[400, 600)`. -/
def raise_for_status (r : HttpResponse) : Except PyExc Unit :=
  if 400 ≤ r.status ∧ r.status < 600 then .error (.httpError r.status) else .ok ()

/-- Truthiness of a `requests.Response` (`if response:` at ingest.py line
186): `Response.__bool__` returns `self.ok`, which is true exactly when
`raise_for_status` would not raise. -/
def responseOk (r : HttpResponse) : Bool :=
  if 400 ≤ r.status ∧ r.status < 600 then false else true

/-- `response.json()`: the parsed body, or `ValueError` when the body is not
valid JSON. -/
def responseJson (r : HttpResponse) : Except PyExc JVal :=
  match r.jsonBody with
  | some j => .ok j
  | none => .error .valueError

/-- Python `d.get(key, default)`: defined for dicts, `AttributeError` on any
other value. -/
def dictGet (j : JVal) (key : String) (dflt : JVal) : Except PyExc JVal :=
  match j with
  | .obj fs => .ok (((fs.find? (fun kv => kv.1 = key)).map Prod.snd).getD dflt)
  | _ => .error .attrError

/-- Single-quote character, used by Python `repr` of strings. -/
def sq : String := String.singleton (Char.ofNat 39)

mutual

/-- Python `repr` of a JSON value (quote escaping inside strings elided);
only reached by the f-string formatting when an `error` field is not a
plain string. -/
def pyRepr : JVal → String
  | .null => "None"
  | .bool true => "True"
  | .bool false => "False"
  | .num n => toString n
  | .str s => sq ++ s ++ sq
  | .arr es => "[" ++ pyReprItems es ++ "]"
  | .obj fs => "\x7b" ++ pyReprFields fs ++ "\x7d"

/-- Comma-joined `repr`s of list elements. -/
def pyReprItems : List JVal → String
  | [] => ""
  | [j] => pyRepr j
  | j :: js => pyRepr j ++ ", " ++ pyReprItems js

/-- Comma-joined `repr`s of dict items. -/
def pyReprFields : List (String × JVal) → String
  | [] => ""
  | [kv] => sq ++ kv.1 ++ sq ++ ": " ++ pyRepr kv.2
  | kv :: fs => sq ++ kv.1 ++ sq ++ ": " ++ pyRepr kv.2 ++ ", " ++ pyReprFields fs

end

/-- Python `str()` as used by f-string interpolation: a string formats as
itself, other values via `repr`-style rendering. -/
def pyToString : JVal → String
  | .str s => s
  | j => pyRepr j

/-- The `RuntimeError` message raised by `_send_logs_to_chronicle`
(ingest.py lines 152-155). -/
def sendErrorMessage (status : Nat) (reason : String) : String :=
  "Error occurred while pushing logs to Chronicle. Status code " ++
    toString status ++ ". Reason: " ++ reason

/-- Result of `_send_logs_to_chronicle`: either the `RuntimeError` it raises,
or a Python exception that escapes uncaught (the inner `except ValueError`
does not catch an `AttributeError` from `.get` on a non-dict body). -/
inductive SendErr where
  | runtimeError (msg : String)
  | uncaught (e : PyExc)
deriving DecidableEq

/-- The `try` body of `_send_logs_to_chronicle` (ingest.py lines 143-146):
`raise_for_status`, then `response.json()` whose truthiness only selects the
success print. -/
def sendTryBody (r : HttpResponse) : Except PyExc Unit :=
  match raise_for_status r with
  | .error e => .error e
  | .ok _ =>
    match responseJson r with
    | .error e => .error e
    | .ok _ => .ok ()

/-- The error-message extraction in the `except` handler (ingest.py lines
148-151): `response.json().get("error", "Unknown error")`, stringified by
the f-string. -/
def sendErrReason (r : HttpResponse) : Except PyExc String :=
  match responseJson r with
  | .error e => .error e
  | .ok j =>
    match dictGet j "error" (.str "Unknown error") with
    | .error e => .error e
    | .ok v => .ok (pyToString v)

/-- `_send_logs_to_chronicle` (ingest.py lines 115-155), response handling:
on an exception in the try body, the handler recomputes `response.json()`
guarded only by `except ValueError` (which yields the fixed fallback
reason), and raises `RuntimeError` with the status code and reason.  The
Lean name drops the leading underscore of the Python name. -/
def send_logs_to_chronicle (r : HttpResponse) : Except SendErr Unit :=
  match sendTryBody r with
  | .ok _ => .ok ()
  | .error _ =>
    match sendErrReason r with
    | .ok msg => .error (.runtimeError (sendErrorMessage r.status msg))
    | .error .valueError =>
        .error (.runtimeError (sendErrorMessage r.status
          "Failed to parse error response from Chronicle"))
    | .error e => .error (.uncaught e)

/-- Spec-side description of the reason carried by the `RuntimeError` of
`_send_logs_to_chronicle`, used to state the error-handling claim: the
`error` field of an object body (default `Unknown error`), or the fixed
fallback string when the body cannot be parsed.  (For a body parsing to a
non-object the code raises an uncaught `AttributeError` instead; that case
is excluded by the claim's hypothesis, and the value here is immaterial.) -/
def errorReasonOf : Option JVal → String
  | none => "Failed to parse error response from Chronicle"
  | some (.obj fs) =>
      pyToString (((fs.find? (fun kv => kv.1 = "error")).map Prod.snd).getD (.str "Unknown error"))
  | some _ => ""

/-- Python `str.isspace` characters for the ASCII range, as stripped by
`str.strip()` with no argument. -/
def isPySpace (c : Char) : Bool :=
  c.toNat = 32 || c.toNat = 9 || c.toNat = 10 || c.toNat = 13 ||
  c.toNat = 11 || c.toNat = 12

/-- Python `s.strip()`: removes leading and trailing whitespace. -/
def pyStrip (s : String) : String :=
  String.mk (List.reverse ((List.reverse (s.data.dropWhile isPySpace)).dropWhile isPySpace))

/-- `s.strip()` on a JSON value: defined for strings, `AttributeError`
otherwise. -/
def stripJ : JVal → Except PyExc String
  | .str s => .ok (pyStrip s)
  | _ => .error .attrError

/-- Python iteration over a JSON value (`for s in list_content`): lists give
their elements, strings their characters (as strings), dicts their keys;
anything else raises `TypeError`. -/
def pyIter : JVal → Except PyExc (List JVal)
  | .arr es => .ok es
  | .str s => .ok (s.data.map (fun c => .str (String.singleton c)))
  | .obj fs => .ok (fs.map (fun kv => .str kv.1))
  | _ => .error .typeError

/-- The list comprehension `[s.strip() for s in list_content if s.strip()]`
(ingest.py line 188): left-to-right, keeps the stripped string when it is
non-empty, propagates the first exception. -/
def listComp : List JVal → Except PyExc (List String)
  | [] => .ok []
  | j :: js =>
    match stripJ j with
    | .error e => .error e
    | .ok t =>
      match listComp js with
      | .error e => .error e
      | .ok rest => .ok (if t = "" then rest else t :: rest)

/-- The `try` body of `get_reference_list` (ingest.py lines 184-189):
`raise_for_status`, then — when the response is truthy — parse the body,
fetch the `lines` field with default `[]`, and run the comprehension.
Returns `none` when the `if response:` branch is skipped and control falls
off the end of the Python function (returning Python `None`). -/
def refTryBody (r : HttpResponse) : Except PyExc (Option (List String)) :=
  match raise_for_status r with
  | .error e => .error e
  | .ok _ =>
    if responseOk r then
      match responseJson r with
      | .error e => .error e
      | .ok j =>
        match dictGet j "lines" (.arr []) with
        | .error e => .error e
        | .ok lines =>
          match pyIter lines with
          | .error e => .error e
          | .ok items =>
            match listComp items with
            | .error e => .error e
            | .ok out => .ok (some out)
    else .ok none

/-- `get_reference_list` (ingest.py lines 158-194), response handling: any
exception from the try body is converted by `except Exception` into a
`RuntimeError` carrying the status code and the underlying reason, which we
keep structured as the pair `(status, exception)`. -/
def get_reference_list (r : HttpResponse) : Except (Nat × PyExc) (Option (List String)) :=
  match refTryBody r with
  | .ok v => .ok v
  | .error e => .error (r.status, e)

/-- A record whose serialisation is `n` letters `a` — used to build concrete
inputs of prescribed serialized size. -/
def repA (n : Nat) : String := String.mk (List.replicate n 'a')

/-- The envelope of such a record. -/
def envA (n : Nat) : Envelope := { logText := repA n }

/-- The request body for customer id `c`, log type `t`, no namespace — the
concrete configuration used in the test inputs below. -/
def bodyCT : Body := { customerId := "c", logType := "t", nspace := none, entries := [] }

/-! ### Length and size lemmas for the serialisation model -/

theorem quoteChar_a : quoteChar 'a' = "a" := by decide

theorem length_escapeChars_repA (n : Nat) :
    (escapeChars (List.replicate n 'a')).length = n := by
  induction n with
  | zero => rfl
  | succ n ih =>
    rw [List.replicate_succ]
    show (quoteChar 'a' ++ escapeChars (List.replicate n 'a')).length = n + 1
    rw [quoteChar_a, String.length_append, ih]
    have ha : ("a").length = 1 := by decide
    rw [ha]
    omega

theorem length_jsonQuote_repA (n : Nat) : (jsonQuote (repA n)).length = n + 2 := by
  show ("\"" ++ escapeChars (List.replicate n 'a') ++ "\"").length = n + 2
  rw [String.length_append, String.length_append, length_escapeChars_repA]
  have hq : ("\"").length = 1 := by decide
  rw [hq]
  omega

theorem length_dumpsEnvelope_envA (n : Nat) :
    (dumpsEnvelope (envA n)).length = n + 15 := by
  show ("\x7b\"logText\": " ++ jsonQuote (repA n) ++ "\x7d").length = n + 15
  rw [String.length_append, String.length_append, length_jsonQuote_repA]
  have h1 : ("\x7b\"logText\": ").length = 12 := by decide
  have h2 : ("\x7d").length = 1 := by decide
  rw [h1, h2]
  omega

theorem getsizeof_dumpsEnvelope_envA (n : Nat) :
    getsizeof (dumpsEnvelope (envA n)) = n + 64 := by
  rw [getsizeof, length_dumpsEnvelope_envA]
  omega

theorem dumpsItems_cons (e : Envelope) (es : List Envelope) (h : es ≠ []) :
    dumpsItems (e :: es) = dumpsEnvelope e ++ ", " ++ dumpsItems es := by
  match es, h with
  | x :: xs, _ => rfl

theorem dumpsItems_append (xs ys : List Envelope) (hys : ys ≠ []) :
    dumpsItems (xs ++ ys) =
      if xs = [] then dumpsItems ys else dumpsItems xs ++ ", " ++ dumpsItems ys := by
  induction xs with
  | nil => simp
  | cons x xs ih =>
    have hxy : xs ++ ys ≠ [] := by
      intro hc
      exact hys (List.append_eq_nil.mp hc).2
    rw [List.cons_append, dumpsItems_cons x (xs ++ ys) hxy, ih]
    by_cases hxs : xs = []
    · subst hxs
      rw [if_pos rfl, if_neg (by simp)]
      rfl
    · rw [if_neg hxs, if_neg (by simp), dumpsItems_cons x xs hxs]
      simp [String.append_assoc]

theorem length_dumpsItems_rep (m n : Nat) :
    (dumpsItems (List.replicate (m + 1) (envA n))).length = (m + 1) * (n + 15) + 2 * m := by
  induction m with
  | zero =>
    show (dumpsItems [envA n]).length = 1 * (n + 15) + 2 * 0
    show (dumpsEnvelope (envA n)).length = 1 * (n + 15) + 2 * 0
    rw [length_dumpsEnvelope_envA]
    ring
  | succ m ih =>
    rw [List.replicate_succ,
      dumpsItems_cons _ _ (by simp),
      String.length_append, String.length_append, ih, length_dumpsEnvelope_envA]
    have h2 : (", ").length = 2 := by decide
    rw [h2]
    ring

theorem length_dumpsList_rep (m n : Nat) (hm : m ≠ 0) :
    (dumpsList (List.replicate m (envA n))).length = m * (n + 17) := by
  match m, hm with
  | k + 1, _ =>
    show ("[" ++ dumpsItems (List.replicate (k + 1) (envA n)) ++ "]").length = _
    rw [String.length_append, String.length_append, length_dumpsItems_rep]
    show 1 + ((k + 1) * (n + 15) + 2 * k) + 1 = (k + 1) * (n + 17)
    ring

theorem getsizeof_dumpsList_rep (m n : Nat) (hm : m ≠ 0) :
    getsizeof (dumpsList (List.replicate m (envA n))) = 49 + m * (n + 17) := by
  rw [getsizeof, length_dumpsList_rep m n hm]

theorem length_dumpsList_nil : (dumpsList ([] : List Envelope)).length = 2 := by decide

theorem length_dumpsList_append (xs ys : List Envelope) (hxs : xs ≠ []) (hys : ys ≠ []) :
    (dumpsList (xs ++ ys)).length = (dumpsList xs).length + (dumpsList ys).length := by
  show ("[" ++ dumpsItems (xs ++ ys) ++ "]").length = _
  rw [dumpsItems_append xs ys hys, if_neg hxs]
  show _ = ("[" ++ dumpsItems xs ++ "]").length + ("[" ++ dumpsItems ys ++ "]").length
  simp only [String.length_append]
  have h2 : (", ").length = 2 := by decide
  have h1 : ("[").length = 1 := by decide
  have h1' : ("]").length = 1 := by decide
  rw [h2, h1, h1']
  omega

theorem length_dumpsBody_entries (b0 : Body) (es : List Envelope) :
    (dumpsBody { b0 with entries := es }).length + 2 =
      (dumpsBody { b0 with entries := [] }).length + (dumpsList es).length := by
  simp only [dumpsBody, String.length_append]
  rw [length_dumpsList_nil]
  omega

theorem getsizeof_body_append (b0 : Body) (acc ys : List Envelope) (hys : ys ≠ []) :
    getsizeof (dumpsBody { b0 with entries := acc ++ ys }) + 49 ≤
      getsizeof (dumpsBody { b0 with entries := acc }) + getsizeof (dumpsList ys) := by
  have h1 := length_dumpsBody_entries b0 (acc ++ ys)
  have h2 := length_dumpsBody_entries b0 acc
  simp only [getsizeof] at *
  by_cases hacc : acc = []
  · subst hacc
    rw [List.nil_append] at h1 ⊢
    rw [length_dumpsList_nil] at h2
    omega
  · have h3 := length_dumpsList_append acc ys hacc hys
    omega

theorem getsizeof_dumpsList_single (e : Envelope) :
    getsizeof (dumpsList [e]) = getsizeof (dumpsEnvelope e) + 2 := by
  show 49 + ("[" ++ dumpsItems [e] ++ "]").length = 49 + (dumpsEnvelope e).length + 2
  show 49 + ("[" ++ dumpsEnvelope e ++ "]").length = 49 + (dumpsEnvelope e).length + 2
  simp only [String.length_append]
  have h1 : ("[").length = 1 := by decide
  have h1' : ("]").length = 1 := by decide
  rw [h1, h1']
  omega

theorem getsizeof_body_append_single (b0 : Body) (acc : List Envelope) (e : Envelope) :
    getsizeof (dumpsBody { b0 with entries := acc ++ [e] }) + 47 ≤
      getsizeof (dumpsBody { b0 with entries := acc }) + getsizeof (dumpsEnvelope e) := by
  have h := getsizeof_body_append b0 acc [e] (by simp)
  have h2 := getsizeof_dumpsList_single e
  omega

theorem getsizeof_bodyCT_nil :
    getsizeof (dumpsBody { bodyCT with entries := [] }) = 99 := by decide

theorem length_dumpsBody_CT (es : List Envelope) :
    (dumpsBody { bodyCT with entries := es }).length + 2 = 50 + (dumpsList es).length := by
  have h1 := length_dumpsBody_entries bodyCT es
  rw [show (dumpsBody { bodyCT with entries := ([] : List Envelope) }).length = 50 from by decide] at h1
  exact h1

theorem getsizeof_bodyCT_rep (a n : Nat) :
    getsizeof (dumpsBody { bodyCT with entries := List.replicate a (envA n) }) =
      if a = 0 then 99 else 97 + a * (n + 17) := by
  by_cases ha : a = 0
  · subst ha
    rw [if_pos rfl]
    exact getsizeof_bodyCT_nil
  · rw [if_neg ha]
    have h1 := length_dumpsBody_CT (List.replicate a (envA n))
    rw [length_dumpsList_rep a n ha] at h1
    rw [getsizeof]
    omega

/-! ### Stepping lemmas for the batching loop on uniform inputs -/

theorem ingestLoop_done (b0 : Body) (parsed : List Envelope) (fuel idx : Nat)
    (acc : List Envelope) (h : ¬ idx < parsed.length) :
    ingestLoop b0 parsed (fuel + 1) idx acc = (if acc = [] then [] else [acc], true) := by
  simp only [ingestLoop]
  rw [dif_neg h]

theorem uni_batch_eq (k n idx m : Nat) (hm : min LOG_BATCH_SIZE (k - idx) = m) :
    ((List.replicate k (envA n)).drop idx).take LOG_BATCH_SIZE = List.replicate m (envA n) := by
  rw [List.drop_replicate, List.take_replicate, hm]

theorem uni_extend (k n fuel idx a m : Nat)
    (hidx : idx < k)
    (hm : min LOG_BATCH_SIZE (k - idx) = m)
    (hbatch : 49 + m * (n + 17) < SIZE_THRESHOLD_BYTES)
    (hfit : (if a = 0 then 99 else 97 + a * (n + 17)) + (49 + m * (n + 17)) ≤ SIZE_THRESHOLD_BYTES) :
    ingestLoop bodyCT (List.replicate k (envA n)) (fuel + 1) idx (List.replicate a (envA n)) =
      ingestLoop bodyCT (List.replicate k (envA n)) fuel (idx + LOG_BATCH_SIZE)
        (List.replicate (a + m) (envA n)) := by
  have hm0 : m ≠ 0 := by
    have hB : 0 < LOG_BATCH_SIZE := by decide
    omega
  have hlen : idx < (List.replicate k (envA n)).length := by
    rw [List.length_replicate]
    exact hidx
  simp only [ingestLoop]
  rw [dif_pos hlen, uni_batch_eq k n idx m hm, getsizeof_dumpsList_rep m n hm0,
    getsizeof_bodyCT_rep a n, if_neg (by omega), if_pos hfit, ← List.replicate_add]

theorem uni_flush_batchmode (k n fuel idx a m : Nat)
    (hidx : idx < k)
    (hm : min LOG_BATCH_SIZE (k - idx) = m)
    (hbatch : 49 + m * (n + 17) < SIZE_THRESHOLD_BYTES)
    (hnofit : ¬ ((if a = 0 then 99 else 97 + a * (n + 17)) + (49 + m * (n + 17)) ≤ SIZE_THRESHOLD_BYTES)) :
    ingestLoop bodyCT (List.replicate k (envA n)) (fuel + 1) idx (List.replicate a (envA n)) =
      (List.replicate a (envA n) ::
        (ingestLoop bodyCT (List.replicate k (envA n)) fuel idx []).1,
        (ingestLoop bodyCT (List.replicate k (envA n)) fuel idx []).2) := by
  have hm0 : m ≠ 0 := by
    have hB : 0 < LOG_BATCH_SIZE := by decide
    omega
  have hlen : idx < (List.replicate k (envA n)).length := by
    rw [List.length_replicate]
    exact hidx
  simp only [ingestLoop]
  rw [dif_pos hlen, uni_batch_eq k n idx m hm, getsizeof_dumpsList_rep m n hm0,
    getsizeof_bodyCT_rep a n, if_neg (by omega), if_neg hnofit]

theorem uni_flush_singlemode (k n fuel idx a m : Nat)
    (hidx : idx < k)
    (hm : min LOG_BATCH_SIZE (k - idx) = m)
    (hbatch : SIZE_THRESHOLD_BYTES ≤ 49 + m * (n + 17))
    (hnofit : ¬ ((if a = 0 then 99 else 97 + a * (n + 17)) + (n + 64) ≤ SIZE_THRESHOLD_BYTES)) :
    ingestLoop bodyCT (List.replicate k (envA n)) (fuel + 1) idx (List.replicate a (envA n)) =
      (List.replicate a (envA n) ::
        (ingestLoop bodyCT (List.replicate k (envA n)) fuel idx []).1,
        (ingestLoop bodyCT (List.replicate k (envA n)) fuel idx []).2) := by
  have hm0 : m ≠ 0 := by
    have hB : 0 < LOG_BATCH_SIZE := by decide
    omega
  have hlen : idx < (List.replicate k (envA n)).length := by
    rw [List.length_replicate]
    exact hidx
  simp only [ingestLoop]
  rw [dif_pos hlen, uni_batch_eq k n idx m hm, getsizeof_dumpsList_rep m n hm0,
    getsizeof_bodyCT_rep a n, if_pos hbatch]
  simp only [List.getElem_replicate]
  rw [getsizeof_dumpsEnvelope_envA, if_neg hnofit]

/-- When the very first probe from an empty payload neither fits as a batch
nor as a single entry, the loop body of `ingest` sends the empty payload and
retries the same index with the same empty payload: the loop never
terminates, and every iteration emits one empty request. -/
theorem uni_stuck (k n m : Nat) (h0 : 0 < k)
    (hm : min LOG_BATCH_SIZE (k - 0) = m)
    (hsingle : SIZE_THRESHOLD_BYTES ≤ 49 + m * (n + 17) → ¬ (99 + (n + 64) ≤ SIZE_THRESHOLD_BYTES))
    (hbatch : 49 + m * (n + 17) < SIZE_THRESHOLD_BYTES → ¬ (99 + (49 + m * (n + 17)) ≤ SIZE_THRESHOLD_BYTES)) :
    ∀ fuel, ingestLoop bodyCT (List.replicate k (envA n)) fuel 0 [] =
      (List.replicate fuel [], false) := by
  intro fuel
  induction fuel with
  | zero => simp [ingestLoop]
  | succ f ih =>
    by_cases hb : SIZE_THRESHOLD_BYTES ≤ 49 + m * (n + 17)
    · have h := uni_flush_singlemode k n f 0 0 m h0 hm hb (by simpa using hsingle hb)
      rw [List.replicate_zero] at h
      rw [h]
      simp [ih, List.replicate_succ]
    · have h := uni_flush_batchmode k n f 0 0 m h0 hm (by omega) (by simpa using hbatch (by omega))
      rw [List.replicate_zero] at h
      rw [h]
      simp [ih, List.replicate_succ]

/-- `ingest` with the concrete configuration `customer id "c"`, `log type
"t"`, no namespace, unfolded to the loop. -/
theorem ingest_ct (data : List String) (fuel : Nat) :
    ingest "c" "t" none data fuel =
      ingestLoop bodyCT (data.map (fun i => { logText := i })) fuel 0 [] := rfl

theorem map_repA (k n : Nat) :
    (List.replicate k (repA n)).map (fun i => ({ logText := i } : Envelope)) =
      List.replicate k (envA n) := by
  rw [List.map_replicate]
  rfl

/-! ### Claims about the batching loop -/

/-- C1: refuted on the code.  A hundred records of 9482 characters each have
individual envelope sizes of 9546 bytes, far below the threshold, yet their
probe batch measures 949949 bytes: below the threshold, but no longer
fitting next to the empty payload's 99 bytes.  The loop then sends the empty
payload and retries the same index forever: for every iteration bound, the
requests sent are all empty (so no input entry is ever delivered) and the
loop has not finished.  The claimed reconstruction of the input therefore
fails. -/
theorem claim_c1 :
    getsizeof (dumpsEnvelope (envA 9482)) < SIZE_THRESHOLD_BYTES ∧
    ∀ fuel, ingest "c" "t" none (List.replicate 100 (repA 9482)) fuel =
      (List.replicate fuel [], false) := by
  constructor
  · rw [getsizeof_dumpsEnvelope_envA]
    decide
  · intro fuel
    rw [ingest_ct, map_repA]
    exact uni_stuck 100 9482 100 (by decide) (by decide) (by decide) (by decide) fuel

/-- C3: refuted on the code.  For the single record of 950000 characters the
probe batch measures 950066 ≥ threshold, the single envelope (950064 bytes)
does not fit next to the empty payload, and the loop body sends the empty
payload and retries index 0 with an unchanged state: the while loop never
terminates and performs one (empty) send per iteration, for any iteration
bound `fuel`. -/
theorem claim_c3 :
    ∀ fuel, ingest "c" "t" none (List.replicate 1 (repA 950000)) fuel =
      (List.replicate fuel [], false) := by
  intro fuel
  rw [ingest_ct, map_repA]
  exact uni_stuck 1 950000 1 (by decide) (by decide) (by decide) (by decide) fuel

/-- C4: refuted on the code.  The record of 1899936 characters has an
envelope measuring exactly twice the threshold.  Instead of being sent alone
in a single request, it is never sent at all: the loop body repeatedly sends
the empty payload and retries index 0, so for every iteration bound the
requests are all empty and the loop has not completed. -/
theorem claim_c4 :
    getsizeof (dumpsEnvelope (envA 1899936)) = 2 * SIZE_THRESHOLD_BYTES ∧
    ∀ fuel, ingest "c" "t" none (List.replicate 1 (repA 1899936)) fuel =
      (List.replicate fuel [], false) := by
  constructor
  · rw [getsizeof_dumpsEnvelope_envA]
    decide
  · intro fuel
    rw [ingest_ct, map_repA]
    exact uni_stuck 1 1899936 1 (by decide) (by decide) (by decide) (by decide) fuel

/-- C5 counterexample: 250 one-character records.  Every probe batch of 100
entries measures 1849 bytes, comfortably under the threshold, yet `ingest`
produces a single request carrying all 250 entries — not three requests of
100, 100 and 50. -/
theorem claim_c5_counterexample :
    getsizeof (dumpsList (List.replicate 100 (envA 1))) < SIZE_THRESHOLD_BYTES ∧
    ingest "c" "t" none (List.replicate 250 (repA 1)) 4 =
      ([List.replicate 250 (envA 1)], true) := by
  constructor
  · rw [getsizeof_dumpsList_rep 100 1 (by decide)]
    decide
  · rw [ingest_ct, map_repA]
    show ingestLoop bodyCT (List.replicate 250 (envA 1)) (3 + 1) 0 (List.replicate 0 (envA 1)) = _
    rw [uni_extend 250 1 3 0 0 100 (by decide) (by decide) (by decide) (by decide)]
    show ingestLoop bodyCT (List.replicate 250 (envA 1)) (2 + 1) 100 (List.replicate 100 (envA 1)) = _
    rw [uni_extend 250 1 2 100 100 100 (by decide) (by decide) (by decide) (by decide)]
    show ingestLoop bodyCT (List.replicate 250 (envA 1)) (1 + 1) 200 (List.replicate 200 (envA 1)) = _
    rw [uni_extend 250 1 1 200 200 50 (by decide) (by decide) (by decide) (by decide)]
    show ingestLoop bodyCT (List.replicate 250 (envA 1)) (0 + 1) 300 (List.replicate 250 (envA 1)) = _
    rw [ingestLoop_done bodyCT (List.replicate 250 (envA 1)) 0 300 (List.replicate 250 (envA 1))
      (by rw [List.length_replicate]; omega),
      if_neg (by intro hc; rw [List.replicate_eq_nil_iff] at hc; omega)]

/-- C5, amended: with 250 records of 9481 characters each, a probe batch of
100 entries measures 949849 bytes — under the threshold on its own, but not
in combination with an already filled payload.  `ingest` then produces
exactly three requests, of 100, 100 and 50 entries, in order. -/
theorem claim_c5 :
    getsizeof (dumpsList (List.replicate 100 (envA 9481))) < SIZE_THRESHOLD_BYTES ∧
    ingest "c" "t" none (List.replicate 250 (repA 9481)) 7 =
      ([List.replicate 100 (envA 9481), List.replicate 100 (envA 9481),
        List.replicate 50 (envA 9481)], true) := by
  constructor
  · rw [getsizeof_dumpsList_rep 100 9481 (by decide)]
    decide
  · have h3 : ingestLoop bodyCT (List.replicate 250 (envA 9481)) 3 200 [] =
        ([List.replicate 50 (envA 9481)], true) := by
      show ingestLoop bodyCT (List.replicate 250 (envA 9481)) (2 + 1) 200 (List.replicate 0 (envA 9481)) = _
      rw [uni_extend 250 9481 2 200 0 50 (by decide) (by decide) (by decide) (by decide)]
      show ingestLoop bodyCT (List.replicate 250 (envA 9481)) (1 + 1) 300 (List.replicate 50 (envA 9481)) = _
      rw [ingestLoop_done bodyCT (List.replicate 250 (envA 9481)) 1 300 (List.replicate 50 (envA 9481))
        (by rw [List.length_replicate]; omega),
        if_neg (by intro hc; rw [List.replicate_eq_nil_iff] at hc; omega)]
    have h5 : ingestLoop bodyCT (List.replicate 250 (envA 9481)) 5 100 [] =
        ([List.replicate 100 (envA 9481), List.replicate 50 (envA 9481)], true) := by
      show ingestLoop bodyCT (List.replicate 250 (envA 9481)) (4 + 1) 100 (List.replicate 0 (envA 9481)) = _
      rw [uni_extend 250 9481 4 100 0 100 (by decide) (by decide) (by decide) (by decide)]
      show ingestLoop bodyCT (List.replicate 250 (envA 9481)) (3 + 1) 200 (List.replicate 100 (envA 9481)) = _
      rw [uni_flush_batchmode 250 9481 3 200 100 50 (by decide) (by decide) (by decide) (by decide)]
      rw [h3]
    rw [ingest_ct, map_repA]
    show ingestLoop bodyCT (List.replicate 250 (envA 9481)) (6 + 1) 0 (List.replicate 0 (envA 9481)) = _
    rw [uni_extend 250 9481 6 0 0 100 (by decide) (by decide) (by decide) (by decide)]
    show ingestLoop bodyCT (List.replicate 250 (envA 9481)) (5 + 1) 100 (List.replicate 100 (envA 9481)) = _
    rw [uni_flush_batchmode 250 9481 5 100 100 100 (by decide) (by decide) (by decide) (by decide)]
    rw [h5]

/-- Size invariant of the batching loop: entries are only ever appended under
a guard that keeps the serialized body at or below the threshold, and every
request the loop emits is the payload accumulated under that guard.  Hence,
provided the metadata-only body fits the threshold, every emitted request
(in any run, complete or fuel-bounded) serializes to at most the
threshold. -/
theorem ingestLoop_sends_le (b0 : Body) (parsed : List Envelope) :
    ∀ (fuel idx : Nat) (acc : List Envelope),
      getsizeof (dumpsBody { b0 with entries := [] }) ≤ SIZE_THRESHOLD_BYTES →
      getsizeof (dumpsBody { b0 with entries := acc }) ≤ SIZE_THRESHOLD_BYTES →
      ∀ r ∈ (ingestLoop b0 parsed fuel idx acc).1,
        getsizeof (dumpsBody { b0 with entries := r }) ≤ SIZE_THRESHOLD_BYTES := by
  intro fuel
  induction fuel with
  | zero =>
    intro idx acc h0 ha r hr
    simp only [ingestLoop, List.not_mem_nil] at hr
  | succ fuel ih =>
    intro idx acc h0 ha r hr
    simp only [ingestLoop] at hr
    split at hr
    · rename_i hidx
      split at hr
      · rename_i hbig
        split at hr
        · rename_i hfit
          refine ih (idx + 1) (acc ++ [parsed[idx]]) h0 ?_ r hr
          have hs := getsizeof_body_append_single b0 acc parsed[idx]
          omega
        · rcases List.mem_cons.mp hr with hra | hrt
          · exact hra ▸ ha
          · exact ih idx [] h0 h0 r hrt
      · split at hr
        · rename_i hfit
          refine ih (idx + LOG_BATCH_SIZE) (acc ++ (parsed.drop idx).take LOG_BATCH_SIZE) h0 ?_ r hr
          have hne : (parsed.drop idx).take LOG_BATCH_SIZE ≠ [] := by
            intro hc
            rcases List.take_eq_nil_iff.mp hc with hc' | hc'
            · exact absurd hc' (by decide)
            · rw [List.drop_eq_nil_iff] at hc'
              omega
          have hs := getsizeof_body_append b0 acc ((parsed.drop idx).take LOG_BATCH_SIZE) hne
          omega
        · rcases List.mem_cons.mp hr with hra | hrt
          · exact hra ▸ ha
          · exact ih idx [] h0 h0 r hrt
    · split at hr
      · simp only [List.not_mem_nil] at hr
      · rw [List.mem_singleton.mp hr]
        exact ha

/-- C2: every request body that `ingest` passes to the send operation —
including in runs cut short by the iteration bound — serializes to at most
the threshold, provided the entry-free body (fixed metadata only) does.
The exception the claim allows for (a single envelope exceeding the
threshold sent alone) never occurs: such an envelope is never appended. -/
theorem claim_c2 (customer_id log_type : String) (ns : Option String)
    (data : List String) (fuel : Nat)
    (hbase : getsizeof (dumpsBody (ingestBody customer_id log_type ns)) ≤ SIZE_THRESHOLD_BYTES) :
    ∀ r ∈ (ingest customer_id log_type ns data fuel).1,
      getsizeof (dumpsBody { ingestBody customer_id log_type ns with entries := r }) ≤
        SIZE_THRESHOLD_BYTES := by
  have hbase' : getsizeof (dumpsBody { ingestBody customer_id log_type ns with entries := [] }) ≤
      SIZE_THRESHOLD_BYTES := hbase
  exact ingestLoop_sends_le (ingestBody customer_id log_type ns)
    (data.map (fun i => { logText := i })) fuel 0 [] hbase' hbase'

/-- Witness for C2 at a concrete configuration and input. -/
theorem claim_c2_witness :
    getsizeof (dumpsBody (ingestBody "c" "t" none)) ≤ SIZE_THRESHOLD_BYTES ∧
    ∀ r ∈ (ingest "c" "t" none ["x"] 3).1,
      getsizeof (dumpsBody { ingestBody "c" "t" none with entries := r }) ≤
        SIZE_THRESHOLD_BYTES :=
  ⟨by decide, claim_c2 "c" "t" none ["x"] 3 (by decide)⟩

/-! ### Claims about the HTTP response handling -/

theorem raise_for_status_ok (r : HttpResponse) (h : ¬ (400 ≤ r.status ∧ r.status < 600)) :
    raise_for_status r = .ok () := by
  unfold raise_for_status
  rw [if_neg h]

theorem raise_for_status_err (r : HttpResponse) (h : 400 ≤ r.status ∧ r.status < 600) :
    raise_for_status r = .error (.httpError r.status) := by
  unfold raise_for_status
  rw [if_pos h]

theorem responseOk_true (r : HttpResponse) (h : ¬ (400 ≤ r.status ∧ r.status < 600)) :
    responseOk r = true := by
  unfold responseOk
  rw [if_neg h]

/-- C9, amended: whenever the status passes `raise_for_status` as a success
(in particular for any 2xx) and the body parses as JSON — even to an empty
object — `_send_logs_to_chronicle` returns without raising. -/
theorem claim_c9 (r : HttpResponse) (j : JVal)
    (h2 : 200 ≤ r.status) (h2' : r.status ≤ 299) (hb : r.jsonBody = some j) :
    send_logs_to_chronicle r = .ok () := by
  have ht : sendTryBody r = .ok () := by
    unfold sendTryBody
    rw [raise_for_status_ok r (by omega)]
    unfold responseJson
    rw [hb]
  unfold send_logs_to_chronicle
  rw [ht]

/-- C9 counterexample: a 200 response whose body is empty (hence does not
parse as JSON) is not treated as confirmation — the `ValueError` from the
success path's `response.json()` is mis-routed into the error branch and a
`RuntimeError` carrying status 200 and the parse-failure fallback reason is
raised. -/
theorem claim_c9_counterexample :
    send_logs_to_chronicle { status := 200, jsonBody := none } =
      .error (.runtimeError "Error occurred while pushing logs to Chronicle. Status code 200. Reason: Failed to parse error response from Chronicle") := by
  rfl

/-- Witness for the amended C9 at a concrete 200 response with body `\x7b\x7d`. -/
theorem claim_c9_witness :
    (200 ≤ (200 : Nat) ∧ (200 : Nat) ≤ 299) ∧
    send_logs_to_chronicle { status := 200, jsonBody := some (.obj []) } = .ok () :=
  ⟨by decide, claim_c9 { status := 200, jsonBody := some (.obj []) } (.obj [])
    (by decide) (by decide) rfl⟩

/-- C6, amended: when the status is in the `raise_for_status` range
`[400, 600)` and the body either fails to parse or parses to a JSON object,
`_send_logs_to_chronicle` raises a `RuntimeError` whose message carries the
HTTP status code and the body's `error` field (default `Unknown error`), or
the fixed fallback string when the body cannot be parsed. -/
theorem claim_c6 (r : HttpResponse)
    (h4 : 400 ≤ r.status) (h6 : r.status < 600)
    (hb : r.jsonBody = none ∨ ∃ fs, r.jsonBody = some (.obj fs)) :
    send_logs_to_chronicle r =
      .error (.runtimeError (sendErrorMessage r.status (errorReasonOf r.jsonBody))) := by
  have ht : sendTryBody r = .error (.httpError r.status) := by
    unfold sendTryBody
    rw [raise_for_status_err r ⟨h4, h6⟩]
  rcases hb with hb | ⟨fs, hb⟩
  · have hr : sendErrReason r = .error .valueError := by
      unfold sendErrReason responseJson
      rw [hb]
    unfold send_logs_to_chronicle
    rw [ht, hr, hb]
    rfl
  · have hr : sendErrReason r =
        .ok (pyToString (((fs.find? (fun kv => kv.1 = "error")).map Prod.snd).getD (.str "Unknown error"))) := by
      unfold sendErrReason responseJson
      rw [hb]
      rfl
    unfold send_logs_to_chronicle
    rw [ht, hr, hb]
    rfl

/-- C6 counterexample: a non-2xx response (status 300, reachable since
`requests` does not auto-follow `300 Multiple Choices`) with a parseable
JSON object body raises nothing at all — `raise_for_status` only raises for
4xx/5xx — contradicting the claim that every non-2xx response raises. -/
theorem claim_c6_counterexample :
    ¬ (200 ≤ 300 ∧ (300 : Nat) ≤ 299) ∧
    send_logs_to_chronicle
      { status := 300, jsonBody := some (.obj [("error", .str "redirected")]) } = .ok () :=
  ⟨by decide, rfl⟩

/-- Witness for the amended C6: HTTP 400 with body
`\x7b"error": "invalid logType"\x7d` raises the ingestion `RuntimeError`
whose message contains status 400 and `invalid logType`. -/
theorem claim_c6_witness :
    ((400 : Nat) ≤ 400 ∧ (400 : Nat) < 600) ∧
    send_logs_to_chronicle
      { status := 400, jsonBody := some (.obj [("error", .str "invalid logType")]) } =
      .error (.runtimeError "Error occurred while pushing logs to Chronicle. Status code 400. Reason: invalid logType") := by
  refine ⟨by decide, ?_⟩
  have h := claim_c6 { status := 400, jsonBody := some (.obj [("error", .str "invalid logType")]) }
    (by decide) (by decide) (Or.inr ⟨[("error", .str "invalid logType")], rfl⟩)
  exact h.trans (by rfl)

theorem listComp_map_str (xs : List String) :
    listComp (xs.map JVal.str) = .ok ((xs.map pyStrip).filter (fun t => t ≠ "")) := by
  induction xs with
  | nil => rfl
  | cons x xs ih =>
    show listComp (JVal.str x :: xs.map JVal.str) = _
    simp only [listComp, stripJ]
    rw [ih]
    by_cases hx : pyStrip x = ""
    · simp [List.filter_cons, hx]
    · simp [List.filter_cons, hx]

/-- C7: on a success status, `get_reference_list` returns the `lines` field
(defaulting to the empty sequence when the field is absent), with each line
stripped, lines empty after stripping dropped, and the order of the rest
preserved. -/
theorem claim_c7 (r : HttpResponse) (fs : List (String × JVal)) (xs : List String)
    (h2 : 200 ≤ r.status) (h2' : r.status ≤ 299)
    (hb : r.jsonBody = some (.obj fs))
    (hlines : (fs.find? (fun kv => kv.1 = "lines")).map Prod.snd = some (.arr (xs.map JVal.str)) ∨
      ((fs.find? (fun kv => kv.1 = "lines")) = none ∧ xs = [])) :
    get_reference_list r = .ok (some ((xs.map pyStrip).filter (fun t => t ≠ ""))) := by
  have hval : ((fs.find? (fun kv => kv.1 = "lines")).map Prod.snd).getD (.arr []) =
      .arr (xs.map JVal.str) := by
    rcases hlines with hl | ⟨hl, hxs⟩
    · rw [hl]
      rfl
    · subst hxs
      rw [hl]
      rfl
  have h1 : responseJson r = .ok (.obj fs) := by
    unfold responseJson
    rw [hb]
  have hget : dictGet (.obj fs) "lines" (.arr []) = .ok (.arr (xs.map JVal.str)) := by
    show Except.ok (((fs.find? (fun kv => kv.1 = "lines")).map Prod.snd).getD (.arr [])) = _
    rw [hval]
  have href : refTryBody r = .ok (some ((xs.map pyStrip).filter (fun t => t ≠ ""))) := by
    simp only [refTryBody, raise_for_status_ok r (by omega : ¬ (400 ≤ r.status ∧ r.status < 600)),
      responseOk_true r (by omega : ¬ (400 ≤ r.status ∧ r.status < 600)), h1, hget, pyIter,
      listComp_map_str, if_true]
  unfold get_reference_list
  rw [href]

/-- Witness for C7: the scenario response `\x7b"lines": [" a ", "", "b"]\x7d`
with status 200 yields exactly `["a", "b"]`. -/
theorem claim_c7_witness :
    ((200 : Nat) ≤ 200 ∧ (200 : Nat) ≤ 299) ∧
    get_reference_list
      { status := 200, jsonBody := some (.obj [("lines", .arr [.str " a ", .str "", .str "b"])]) } =
      .ok (some ["a", "b"]) := by
  refine ⟨by decide, ?_⟩
  have h := claim_c7
    { status := 200, jsonBody := some (.obj [("lines", .arr [.str " a ", .str "", .str "b"])]) }
    [("lines", .arr [.str " a ", .str "", .str "b"])] [" a ", "", "b"]
    (by decide) (by decide) rfl (Or.inl (by rfl))
  exact h.trans (by rfl)

/-- C8 counterexample: for the (legitimately mixed-case) region `EU` the
code lower-cases the region before prefixing, so the URL host starts with
`eu-`, not with the configured region text `EU-`. -/
theorem claim_c8_counterexample :
    pyLower "EU" ≠ "us" ∧
    ingestion_url "EU" =
      "https://eu-malachiteingestion-pa.googleapis.com/v2/unstructuredlogentries:batchCreate" ∧
    ingestion_url "EU" ≠
      "https://EU-malachiteingestion-pa.googleapis.com/v2/unstructuredlogentries:batchCreate" := by
  refine ⟨by decide, by decide, by decide⟩

/-- C8, amended: for both operations, when the lower-cased region differs
from `us` the host is prefixed with the lower-cased region and a hyphen,
otherwise the bare host is used; in particular region `asia-southeast1`
yields the host `asia-southeast1-malachiteingestion-pa.googleapis.com`. -/
theorem claim_c8 (region list_name : String) :
    (pyLower region ≠ "us" →
      ingestion_url region =
        "https://" ++ pyLower region ++ "-" ++ INGESTION_API_BASE_URL ++
          "/v2/unstructuredlogentries:batchCreate" ∧
      reference_list_url region list_name =
        "https://" ++ pyLower region ++ "-" ++ REFERENCE_LIST_API_BASE_URL ++
          "/v2/lists/" ++ list_name) ∧
    (pyLower region = "us" →
      ingestion_url region =
        "https://" ++ INGESTION_API_BASE_URL ++ "/v2/unstructuredlogentries:batchCreate" ∧
      reference_list_url region list_name =
        "https://" ++ REFERENCE_LIST_API_BASE_URL ++ "/v2/lists/" ++ list_name) ∧
    ingestion_url "asia-southeast1" =
      "https://asia-southeast1-malachiteingestion-pa.googleapis.com/v2/unstructuredlogentries:batchCreate" := by
  refine ⟨fun h => ?_, fun h => ?_, by decide⟩
  · unfold ingestion_url reference_list_url
    rw [if_pos h, if_pos h]
    exact ⟨rfl, rfl⟩
  · unfold ingestion_url reference_list_url
    rw [if_neg (not_not_intro h), if_neg (not_not_intro h)]
    exact ⟨rfl, rfl⟩

/-- Witness for the amended C8 at the scenario region. -/
theorem claim_c8_witness :
    pyLower "asia-southeast1" ≠ "us" ∧
    (ingestion_url "asia-southeast1" =
      "https://" ++ pyLower "asia-southeast1" ++ "-" ++ INGESTION_API_BASE_URL ++
        "/v2/unstructuredlogentries:batchCreate" ∧
     reference_list_url "asia-southeast1" "COLDRIVER_SHA256" =
      "https://" ++ pyLower "asia-southeast1" ++ "-" ++ REFERENCE_LIST_API_BASE_URL ++
        "/v2/lists/" ++ "COLDRIVER_SHA256") :=
  ⟨by decide, (claim_c8 "asia-southeast1" "COLDRIVER_SHA256").1 (by decide)⟩

theorem responseOk_of_rfs (r : HttpResponse) (u : Unit)
    (h : raise_for_status r = .ok u) : responseOk r = true := by
  by_cases hc : 400 ≤ r.status ∧ r.status < 600
  · rw [raise_for_status_err r hc] at h
    exact Except.noConfusion h
  · exact responseOk_true r hc

/-- C10: `get_reference_list` never returns Python `None`: whenever
`raise_for_status` passes, the response is truthy (`Response.__bool__` is the
very same check), so the function either returns the stripped list or raises
the `RuntimeError`; the fall-through returning `None` is unreachable. -/
theorem claim_c10 : ∀ r : HttpResponse, get_reference_list r ≠ .ok none := by
  intro r h
  unfold get_reference_list at h
  split at h
  · rename_i v heq
    rw [Except.ok.injEq] at h
    subst h
    unfold refTryBody at heq
    split at heq
    · exact Except.noConfusion heq
    · rename_i u hrfs
      rw [responseOk_of_rfs r u hrfs, if_pos rfl] at heq
      split at heq
      · exact Except.noConfusion heq
      · split at heq
        · exact Except.noConfusion heq
        · split at heq
          · exact Except.noConfusion heq
          · split at heq
            · exact Except.noConfusion heq
            · rw [Except.ok.injEq] at heq
              exact Option.noConfusion heq
  · exact Except.noConfusion h

end Chronicle
